import Mathlib

/-!  Verification development for the parameter-survey module (`ehtim/survey.py`).

We shallowly embed the parts of the module the claims are about:

* `ParameterSet.__init__` (attribute injection from the swept row and the
  fixed-parameter mapping, plus the microarcsecond-to-radian conversion of the
  three angular fields) as `initPS`;
* the short-baseline rescaling of `ParameterSet.preimcal` as `preimcalRescale`;
* the data-term selection at the top of `ParameterSet.make_img` as
  `buildDataTerm`;
* the imaging / self-calibration control loop of `ParameterSet.make_img`
  (static imaging, phase-only rounds, amplitude+phase rounds, the data-weight
  boosts, and the final `self.caltab = caltab` line) as `make_img`, recording a
  trace of external-library invocations;
* `ParameterSet.run` with its `_params.csv` resume marker as `runPipeline`;
* `create_survey_psets` (cartesian product of swept value lists plus the `i`
  index column) as `create_survey_psets`.

Python dictionaries that hold parameters are embedded as association lists of
`String × Val`; machine floats are embedded as rationals (only their exact
arithmetic as scale factors matters to the claims). -/

namespace EhtimSurvey

/-- Modelled from the spec: the fixed microarcsecond-to-radian conversion
constant (`eh.RADPERUAS` of the imaging library, a floating-point constant
defined outside this module).  Its exact value is immaterial to every claim,
which only use that it is one fixed constant; we embed the double value. -/
def RADPERUAS : ℚ := 4.84813681109536e-12

/-- A Python attribute/dict value as used by the survey module: a number, a
string, or a boolean. -/
inductive Val where
  | num (q : ℚ)
  | str (s : String)
  | bool (b : Bool)
deriving DecidableEq

/-- Lookup of a key in an association list (Python dict read). -/
def lookupKey (k : String) : List (String × Val) → Option Val
  | [] => none
  | (k', v) :: rest => if k' = k then some v else lookupKey k rest

/-- Python dict item assignment `d[k] = v`: replace the value of an existing
key in place, or append a new entry. -/
def setEntry (k : String) (v : Val) : List (String × Val) → List (String × Val)
  | [] => [(k, v)]
  | (k', v') :: rest => if k' = k then (k, v) :: rest else (k', v') :: setEntry k v rest

/-- Attribute lookup on a `ParameterSet`: `__init__` sets every key of
`paramset` and afterwards every key of `params_fixed` as attributes
(lines 48-53), so on a key collision the fixed mapping wins. -/
def attrLookup (row fixed : List (String × Val)) (k : String) : Option Val :=
  match lookupKey k fixed with
  | some v => some v
  | none => lookupKey k row

/-- Read an attribute as a number (a non-numeric value where Python would go
on to multiply by a float would raise there as well, so we fold both the
missing-attribute and the wrong-type case into an absent result). -/
def asNum : Option Val → Option ℚ
  | some (.num q) => some q
  | _ => none

/-- The `ParameterSet` fields that construction itself computes (lines 55-61):
the stored mappings, the two attributes read to build the output basename, and
the three angular fields after their one microarcsecond-to-radian conversion. -/
structure PSet where
  outfile_base : Val
  i : Val
  fov : ℚ
  reverse_taper_uas : ℚ
  prior_fwhm : ℚ
  paramset : List (String × Val)
  params_fixed : List (String × Val)
deriving DecidableEq

/-- `ParameterSet.__init__` (lines 35-61).  Construction reads the attributes
`outfile_base` and `i` (line 57) and `fov`, `reverse_taper_uas`, `prior_fwhm`
(lines 59-61); if any of them is absent from both mappings, Python raises
`AttributeError` during construction, embedded as the error result.  The three
angular fields are multiplied by `RADPERUAS` exactly once.  No other key is
read at construction time. -/
def initPS (row fixed : List (String × Val)) : Except String PSet :=
  match attrLookup row fixed "outfile_base",
        attrLookup row fixed "i",
        asNum (attrLookup row fixed "fov"),
        asNum (attrLookup row fixed "reverse_taper_uas"),
        asNum (attrLookup row fixed "prior_fwhm") with
  | some b, some i, some f, some r, some p =>
      .ok { outfile_base := b, i := i,
            fov := f * RADPERUAS,
            reverse_taper_uas := r * RADPERUAS,
            prior_fwhm := p * RADPERUAS,
            paramset := row, params_fixed := fixed }
  | _, _, _, _, _ => .error "AttributeError"

/-- Whether construction succeeded. -/
def isOkE (e : Except String PSet) : Bool :=
  match e with
  | .ok _ => true
  | .error _ => false

/-- `ParameterSet.save_params` (lines 409-424), restricted to its effect on the
shared swept-row mapping: it writes the already-converted `self.fov` back into
`self.paramset` under `fov` and adds the measured `zbl_tot`, then persists that
mapping.  The returned list is both the mutated row object and the persisted
parameter record. -/
def save_params_record (ps : PSet) (zbl_tot : ℚ) : List (String × Val) :=
  setEntry "zbl_tot" (.num zbl_tot) (setEntry "fov" (.num ps.fov) ps.paramset)

theorem lookupKey_setEntry_self (k : String) (v : Val) (l : List (String × Val)) :
    lookupKey k (setEntry k v l) = some v := by
  induction l with
  | nil => simp [setEntry, lookupKey]
  | cons kv rest ih =>
      obtain ⟨k₁, v₁⟩ := kv
      by_cases h : k₁ = k
      · simp [setEntry, lookupKey, h]
      · simp [setEntry, lookupKey, h, ih]

theorem lookupKey_setEntry_ne (k k' : String) (v : Val) (l : List (String × Val))
    (h : k' ≠ k) : lookupKey k' (setEntry k v l) = lookupKey k' l := by
  induction l with
  | nil => simp [setEntry, lookupKey, Ne.symm h]
  | cons kv rest ih =>
      obtain ⟨k₁, v₁⟩ := kv
      by_cases hk : k₁ = k
      · subst hk
        simp [setEntry, lookupKey, Ne.symm h]
      · by_cases hk' : k₁ = k'
        · simp [setEntry, lookupKey, hk, hk', h]
        · simp [setEntry, lookupKey, hk, hk', ih]

theorem initPS_ok_elim (row fixed : List (String × Val)) (ps : PSet)
    (h : initPS row fixed = .ok ps) :
    attrLookup row fixed "outfile_base" = some ps.outfile_base ∧
    attrLookup row fixed "i" = some ps.i ∧
    (∃ f, asNum (attrLookup row fixed "fov") = some f ∧ ps.fov = f * RADPERUAS) ∧
    (∃ r, asNum (attrLookup row fixed "reverse_taper_uas") = some r ∧
       ps.reverse_taper_uas = r * RADPERUAS) ∧
    (∃ p, asNum (attrLookup row fixed "prior_fwhm") = some p ∧
       ps.prior_fwhm = p * RADPERUAS) ∧
    ps.paramset = row ∧ ps.params_fixed = fixed := by
  cases hb : attrLookup row fixed "outfile_base" <;>
    cases hi : attrLookup row fixed "i" <;>
      cases hf : asNum (attrLookup row fixed "fov") <;>
        cases hr : asNum (attrLookup row fixed "reverse_taper_uas") <;>
          cases hp : asNum (attrLookup row fixed "prior_fwhm") <;>
            simp only [initPS, hb, hi, hf, hr, hp, reduceCtorEq, Except.ok.injEq] at h
  subst h
  simp [hb, hi, hf, hr, hp]

theorem initPS_ok_intro (row fixed : List (String × Val)) (b i : Val) (f r p : ℚ)
    (hb : attrLookup row fixed "outfile_base" = some b)
    (hi : attrLookup row fixed "i" = some i)
    (hf : asNum (attrLookup row fixed "fov") = some f)
    (hr : asNum (attrLookup row fixed "reverse_taper_uas") = some r)
    (hp : asNum (attrLookup row fixed "prior_fwhm") = some p) :
    initPS row fixed =
      .ok { outfile_base := b, i := i, fov := f * RADPERUAS,
            reverse_taper_uas := r * RADPERUAS, prior_fwhm := p * RADPERUAS,
            paramset := row, params_fixed := fixed } := by
  simp [initPS, hb, hi, hf, hr, hp]

/-- Claim C7: angular-field unit conversion is applied exactly once at
`ParameterSet` construction: a row whose effective `fov` attribute is `X`
microarcseconds yields a stored field-of-view of exactly `X * RADPERUAS`, and a
second construction from the same row and fixed-parameter mappings yields the
identical `ParameterSet` (construction is deterministic and does not
re-convert). -/
theorem c7_fov_converted_once (row fixed : List (String × Val)) (X : ℚ) (ps₁ ps₂ : PSet)
    (hf : asNum (attrLookup row fixed "fov") = some X)
    (h1 : initPS row fixed = .ok ps₁) (h2 : initPS row fixed = .ok ps₂) :
    ps₁.fov = X * RADPERUAS ∧ ps₂ = ps₁ := by
  obtain ⟨-, -, ⟨f, hf1, hfov1⟩, -⟩ := initPS_ok_elim row fixed ps₁ h1
  have hfx : f = X := by
    rw [hf] at hf1
    exact (Option.some.inj hf1).symm
  refine ⟨by rw [hfov1, hfx], ?_⟩
  rw [h1] at h2
  exact (Except.ok.inj h2).symm

/-- Swept row used as the concrete input witnessing claim C7. -/
def exRow7 : List (String × Val) :=
  [("outfile_base", .str "survey"), ("i", .num 3), ("fov", .num 128),
   ("reverse_taper_uas", .num 5), ("prior_fwhm", .num 40)]

/-- The `ParameterSet` built from `exRow7` with an empty fixed mapping. -/
def exPS7 : PSet :=
  { outfile_base := .str "survey", i := .num 3, fov := 128 * RADPERUAS,
    reverse_taper_uas := 5 * RADPERUAS, prior_fwhm := 40 * RADPERUAS,
    paramset := exRow7, params_fixed := [] }

theorem c7_fov_converted_once_witness :
    asNum (attrLookup exRow7 [] "fov") = some 128 ∧
    initPS exRow7 [] = .ok exPS7 ∧
    (exPS7.fov = 128 * RADPERUAS ∧ exPS7 = exPS7) :=
  ⟨rfl, rfl, c7_fov_converted_once exRow7 [] 128 exPS7 exPS7 rfl rfl rfl⟩

/-- Claim C8 (amended): `ParameterSet` construction has no failure mode other
than missing required keys, but the required keys `outfile_base`, `i`, `fov`,
`reverse_taper_uas` and `prior_fwhm` are read during construction itself
(lines 57-61), so construction succeeds exactly when those five attributes are
present; the absence of any of them surfaces as the missing-attribute error at
construction, while any other absent field only errors when a later stage
reads it. -/
theorem c8_required_keys_at_construction (row fixed : List (String × Val)) :
    isOkE (initPS row fixed) = true ↔
      ((attrLookup row fixed "outfile_base").isSome = true ∧
       (attrLookup row fixed "i").isSome = true ∧
       (asNum (attrLookup row fixed "fov")).isSome = true ∧
       (asNum (attrLookup row fixed "reverse_taper_uas")).isSome = true ∧
       (asNum (attrLookup row fixed "prior_fwhm")).isSome = true) := by
  cases hb : attrLookup row fixed "outfile_base" <;>
    cases hi : attrLookup row fixed "i" <;>
      cases hf : asNum (attrLookup row fixed "fov") <;>
        cases hr : asNum (attrLookup row fixed "reverse_taper_uas") <;>
          cases hp : asNum (attrLookup row fixed "prior_fwhm") <;>
            simp [initPS, isOkE, hb, hi, hf, hr, hp]

/-- Swept row for the C8 counterexample: all construction-read keys except
`fov` are present, together with keys that only later pipeline stages read. -/
def exRow8 : List (String × Val) :=
  [("outfile_base", .str "survey"), ("i", .num 0),
   ("reverse_taper_uas", .num 5), ("prior_fwhm", .num 40),
   ("infile", .str "obs.uvfits"), ("zbl", .num 0.6)]

/-- Counterexample to claim C8 as stated: with `fov` absent from both
mappings, the missing-attribute error is raised during construction itself
(line 59 reads `self.fov`), not when a later pipeline stage reads the field. -/
theorem c8_counterexample :
    lookupKey "fov" exRow8 = none ∧
    lookupKey "fov" ([] : List (String × Val)) = none ∧
    initPS exRow8 [] = .error "AttributeError" :=
  ⟨rfl, rfl, rfl⟩

theorem attrLookup_save_params_ne (ps : PSet) (z : ℚ) (fixed : List (String × Val))
    (k : String) (h1 : k ≠ "fov") (h2 : k ≠ "zbl_tot") :
    attrLookup (save_params_record ps z) fixed k = attrLookup ps.paramset fixed k := by
  cases hkf : lookupKey k fixed with
  | some v => simp [attrLookup, hkf]
  | none =>
      simp only [attrLookup, hkf, save_params_record]
      rw [lookupKey_setEntry_ne "zbl_tot" k _ _ h2, lookupKey_setEntry_ne "fov" k _ _ h1]

/-- Claim C10: `save_params` mutates the swept-row mapping shared with the
`ParameterSet` in place.  For a row whose `fov` comes from the swept mapping
(`fov` absent from the fixed mapping), after `save_params` the row's `fov`
entry holds the radian-converted value `X * RADPERUAS` (not the input
microarcsecond value `X`), a `zbl_tot` entry has been added, and constructing
a fresh `ParameterSet` from that same row object applies the unit conversion a
second time, storing `X * RADPERUAS * RADPERUAS`. -/
theorem c10_save_params_mutates_row (row fixed : List (String × Val)) (X z : ℚ) (ps : PSet)
    (hfix : lookupKey "fov" fixed = none)
    (hrow : asNum (lookupKey "fov" row) = some X)
    (h : initPS row fixed = .ok ps) :
    asNum (lookupKey "fov" (save_params_record ps z)) = some (X * RADPERUAS) ∧
    asNum (lookupKey "zbl_tot" (save_params_record ps z)) = some z ∧
    ∃ ps₂, initPS (save_params_record ps z) fixed = .ok ps₂ ∧
      ps₂.fov = X * RADPERUAS * RADPERUAS := by
  obtain ⟨hb, hi, ⟨f, hf, hfov⟩, ⟨r, hr, hrt⟩, ⟨p, hp, hpf⟩, hparam, hfixed⟩ :=
    initPS_ok_elim row fixed ps h
  have hmerge : attrLookup row fixed "fov" = lookupKey "fov" row := by
    simp [attrLookup, hfix]
  have hfX : f = X := by
    rw [hmerge] at hf
    rw [hf] at hrow
    exact Option.some.inj hrow
  have hpsfov : ps.fov = X * RADPERUAS := by rw [hfov, hfX]
  have hfov' : lookupKey "fov" (save_params_record ps z) = some (.num ps.fov) := by
    unfold save_params_record
    rw [lookupKey_setEntry_ne "zbl_tot" "fov" _ _ (by decide), lookupKey_setEntry_self]
  have hzt : lookupKey "zbl_tot" (save_params_record ps z) = some (.num z) := by
    unfold save_params_record
    rw [lookupKey_setEntry_self]
  refine ⟨by rw [hfov']; simp [asNum, hpsfov], by rw [hzt]; simp [asNum], ?_⟩
  have hob : attrLookup (save_params_record ps z) fixed "outfile_base" =
      some ps.outfile_base := by
    rw [attrLookup_save_params_ne ps z fixed _ (by decide) (by decide), hparam]
    exact hb
  have hii : attrLookup (save_params_record ps z) fixed "i" = some ps.i := by
    rw [attrLookup_save_params_ne ps z fixed _ (by decide) (by decide), hparam]
    exact hi
  have hfm : asNum (attrLookup (save_params_record ps z) fixed "fov") = some ps.fov := by
    simp [attrLookup, hfix, hfov', asNum]
  have hrm : asNum (attrLookup (save_params_record ps z) fixed "reverse_taper_uas") =
      some r := by
    rw [attrLookup_save_params_ne ps z fixed _ (by decide) (by decide), hparam]
    exact hr
  have hpm : asNum (attrLookup (save_params_record ps z) fixed "prior_fwhm") = some p := by
    rw [attrLookup_save_params_ne ps z fixed _ (by decide) (by decide), hparam]
    exact hp
  exact ⟨_, initPS_ok_intro (save_params_record ps z) fixed ps.outfile_base ps.i
    ps.fov r p hob hii hfm hrm hpm, by simp [hpsfov]⟩

/-- Swept row used as the concrete input witnessing claim C10. -/
def exRow10 : List (String × Val) :=
  [("outfile_base", .str "survey"), ("i", .num 3), ("fov", .num 128),
   ("reverse_taper_uas", .num 5), ("prior_fwhm", .num 40)]

/-- The `ParameterSet` built from `exRow10` with an empty fixed mapping. -/
def exPS10 : PSet :=
  { outfile_base := .str "survey", i := .num 3, fov := 128 * RADPERUAS,
    reverse_taper_uas := 5 * RADPERUAS, prior_fwhm := 40 * RADPERUAS,
    paramset := exRow10, params_fixed := [] }

theorem c10_save_params_mutates_row_witness :
    lookupKey "fov" ([] : List (String × Val)) = none ∧
    asNum (lookupKey "fov" exRow10) = some 128 ∧
    initPS exRow10 [] = .ok exPS10 ∧
    (asNum (lookupKey "fov" (save_params_record exPS10 2)) = some (128 * RADPERUAS) ∧
     asNum (lookupKey "zbl_tot" (save_params_record exPS10 2)) = some 2 ∧
     ∃ ps₂, initPS (save_params_record exPS10 2) [] = .ok ps₂ ∧
       ps₂.fov = 128 * RADPERUAS * RADPERUAS) :=
  ⟨rfl, rfl, rfl, c10_save_params_mutates_row exRow10 [] 128 2 exPS10 rfl rfl rfl⟩

/-- One row of `obs.data`: the baseline coordinates `u`, `v` and the eight
fields rescaled by `preimcal` (lines 120-121).  The complex visibilities scale
componentwise under a real factor, so one rational component per field is a
faithful stand-in for the scaling claim. -/
structure VisDatum where
  u : ℚ
  v : ℚ
  vis : ℚ
  qvis : ℚ
  uvis : ℚ
  vvis : ℚ
  sigma : ℚ
  qsigma : ℚ
  usigma : ℚ
  vsigma : ℚ
deriving DecidableEq

/-- The in-place update of lines 120-121: every visibility and noise field of
one measurement multiplied by the factor `zbl / zbl_tot`. -/
def rescaleDatum (fac : ℚ) (d : VisDatum) : VisDatum :=
  { d with vis := d.vis * fac, qvis := d.qvis * fac, uvis := d.uvis * fac,
           vvis := d.vvis * fac, sigma := d.sigma * fac, qsigma := d.qsigma * fac,
           usigma := d.usigma * fac, vsigma := d.vsigma * fac }

/-- The short-baseline rescaling of `ParameterSet.preimcal` (lines 114-121):
if the configured compact flux `zbl` differs from the measured total
`zbl_tot`, every measurement is visited and those with
`sqrt(u^2 + v^2) >= uv_zblcut` are skipped (`continue`), the rest having their
eight fields multiplied by `zbl / zbl_tot`.  For the physical regime
`uv_zblcut ≥ 0` the source's square-root comparison is equivalent to the
square comparison `u^2 + v^2 ≥ uv_zblcut^2` used here. -/
def preimcalRescale (zbl zbl_tot uv_zblcut : ℚ) (data : List VisDatum) : List VisDatum :=
  if zbl ≠ zbl_tot then
    data.map (fun d =>
      if d.u ^ 2 + d.v ^ 2 ≥ uv_zblcut ^ 2 then d else rescaleDatum (zbl / zbl_tot) d)
  else data

/-- What claim C5 asserts of one measurement `d` and its output `e`: strictly
below the cutoff, the baseline coordinates are untouched and each visibility
and noise field is multiplied by exactly `zbl / zbl_tot`; at or beyond the
cutoff the measurement is unchanged. -/
def rescaledAt (zbl zbl_tot uv_zblcut : ℚ) (d e : VisDatum) : Prop :=
  (d.u ^ 2 + d.v ^ 2 < uv_zblcut ^ 2 →
     e.u = d.u ∧ e.v = d.v ∧
     e.vis = d.vis * (zbl / zbl_tot) ∧ e.qvis = d.qvis * (zbl / zbl_tot) ∧
     e.uvis = d.uvis * (zbl / zbl_tot) ∧ e.vvis = d.vvis * (zbl / zbl_tot) ∧
     e.sigma = d.sigma * (zbl / zbl_tot) ∧ e.qsigma = d.qsigma * (zbl / zbl_tot) ∧
     e.usigma = d.usigma * (zbl / zbl_tot) ∧ e.vsigma = d.vsigma * (zbl / zbl_tot)) ∧
  (uv_zblcut ^ 2 ≤ d.u ^ 2 + d.v ^ 2 → e = d)

/-- Claim C5: in pre-imaging calibration, if the configured compact flux
equals the measured total, no field of any measurement is modified; if it
differs, each measurement strictly below the uv cutoff has its visibility and
noise fields multiplied by exactly `zbl / zbl_tot` (coordinates untouched) and
each measurement at or beyond the cutoff is unchanged, pairing input and
output measurements positionally. -/
theorem c5_short_baseline_rescaling (zbl zbl_tot uv_zblcut : ℚ) (data : List VisDatum) :
    (zbl = zbl_tot → preimcalRescale zbl zbl_tot uv_zblcut data = data) ∧
    (zbl ≠ zbl_tot →
      List.Forall₂ (rescaledAt zbl zbl_tot uv_zblcut) data
        (preimcalRescale zbl zbl_tot uv_zblcut data)) := by
  constructor
  · intro h
    simp [preimcalRescale, h]
  · intro h
    rw [preimcalRescale, if_pos h, List.forall₂_map_right_iff, List.forall₂_same]
    intro d _
    by_cases hcut : uv_zblcut ^ 2 ≤ d.u ^ 2 + d.v ^ 2
    · refine ⟨fun hlt => absurd hcut (not_le.mpr hlt), fun _ => ?_⟩
      simp [hcut]
    · refine ⟨fun _ => ?_, fun hge => absurd hge hcut⟩
      rw [if_neg (by exact hcut)]
      simp [rescaleDatum]

/-- A measurement strictly inside the uv cutoff used in the C5 witness. -/
def dShort : VisDatum :=
  { u := 0.5, v := 0.5, vis := 3, qvis := 4, uvis := 5, vvis := 6,
    sigma := 7, qsigma := 8, usigma := 9, vsigma := 10 }

/-- A measurement beyond the uv cutoff used in the C5 witness. -/
def dLong : VisDatum :=
  { u := 3, v := 4, vis := 3, qvis := 4, uvis := 5, vvis := 6,
    sigma := 7, qsigma := 8, usigma := 9, vsigma := 10 }

/-- Observation data used as the concrete input witnessing claim C5. -/
def exData5 : List VisDatum := [dShort, dLong]

theorem c5_short_baseline_rescaling_witness :
    preimcalRescale 1 1 1 exData5 = exData5 ∧
    ((1 : ℚ) ≠ 2 ∧
      List.Forall₂ (rescaledAt 1 2 1) exData5 (preimcalRescale 1 2 1 exData5)) :=
  ⟨(c5_short_baseline_rescaling 1 1 1 exData5).1 rfl,
   by norm_num, (c5_short_baseline_rescaling 1 2 1 exData5).2 (by norm_num)⟩

/-- The attributes consulted by the data-term selection at the top of
`ParameterSet.make_img` (lines 168-183).  An absent attribute is `none`
(`hasattr` false); `diag_closure` is the diagnostic-closure flag, compared
with `is True` in the source, so only `some true` selects the diagnostic
variants. -/
structure DataTermCfg where
  vis : Option ℚ
  amp : Option ℚ
  logcamp : Option ℚ
  cphase : Option ℚ
  logcamp_diag : Option ℚ
  cphase_diag : Option ℚ
  diag_closure : Option Bool
deriving DecidableEq

/-- One `hasattr`-guarded nonzero-weight entry (the pattern of lines 170-173
and 180-183): present and nonzero contributes the key with its own weight. -/
def stdTerm (w? : Option ℚ) (k : String) : List (String × ℚ) :=
  match w? with
  | some w => if w = 0 then [] else [(k, w)]
  | none => []

/-- One diagnostic closure entry (lines 175-178): gated on the `_diag` weight
being present and nonzero, but the stored value is read from the STANDARD
closure weight attribute (`data_term['logcamp_diag'] = self.logcamp`); if that
standard attribute is absent, Python raises `AttributeError` at the read. -/
def diagTerm (gate value : Option ℚ) (k : String) : Except String (List (String × ℚ)) :=
  match gate with
  | some wd =>
      if wd = 0 then .ok []
      else
        match value with
        | some w => .ok [(k, w)]
        | none => .error "AttributeError"
  | none => .ok []

/-- The `data_term` dictionary built by lines 168-183, in insertion order. -/
def buildDataTerm (c : DataTermCfg) : Except String (List (String × ℚ)) :=
  if c.diag_closure = some true then
    match diagTerm c.logcamp_diag c.logcamp "logcamp_diag" with
    | .error e => .error e
    | .ok l1 =>
        match diagTerm c.cphase_diag c.cphase "cphase_diag" with
        | .error e => .error e
        | .ok l2 => .ok (stdTerm c.vis "vis" ++ stdTerm c.amp "amp" ++ l1 ++ l2)
  else
    .ok (stdTerm c.vis "vis" ++ stdTerm c.amp "amp" ++
         stdTerm c.logcamp "logcamp" ++ stdTerm c.cphase "cphase")

theorem mem_stdTerm (w? : Option ℚ) (k k' : String) (w : ℚ) :
    (k', w) ∈ stdTerm w? k ↔ k' = k ∧ w? = some w ∧ w ≠ 0 := by
  cases w? with
  | none => simp [stdTerm]
  | some x =>
      by_cases hx : x = 0
      · subst hx
        constructor
        · intro h
          simp [stdTerm] at h
        · rintro ⟨-, hw, hnz⟩
          exact absurd (Option.some.inj hw).symm hnz
      · constructor
        · intro h
          rw [stdTerm, if_neg hx] at h
          have h := List.mem_singleton.mp h
          injection h with hk hw
          subst hk
          subst hw
          exact ⟨rfl, rfl, hx⟩
        · rintro ⟨hk, hw, -⟩
          subst hk
          rw [stdTerm, if_neg hx, Option.some.inj hw]
          exact List.mem_singleton_self _

theorem mem_diagTerm (gate value : Option ℚ) (k : String) (l : List (String × ℚ))
    (h : diagTerm gate value k = .ok l) (k' : String) (w : ℚ) :
    ((k', w) ∈ l ↔ k' = k ∧ (∃ wd, gate = some wd ∧ wd ≠ 0) ∧ value = some w) := by
  cases gate with
  | none =>
      simp only [diagTerm, Except.ok.injEq] at h
      subst h
      simp
  | some wd =>
      by_cases hwd : wd = 0
      · subst hwd
        simp [diagTerm] at h
        subst h
        simp
      · cases value with
        | none => simp [diagTerm, hwd] at h
        | some wv =>
            simp only [diagTerm, if_neg hwd, Except.ok.injEq] at h
            subst h
            constructor
            · intro hm
              have hm := List.mem_singleton.mp hm
              injection hm with hk hw
              subst hk
              subst hw
              exact ⟨rfl, ⟨wd, rfl, hwd⟩, rfl⟩
            · rintro ⟨hk, -, hv⟩
              subst hk
              rw [Option.some.inj hv]
              exact List.mem_singleton_self _

/-- Claim C6 (amended): a term key appears in `data_term` only if its gating
weight is present and nonzero; `vis`, `amp` and the standard closure terms
carry their own configured weight (hence are nonzero), while the diagnostic
closure variants — chosen only when the diagnostic flag is `True` and their
own `_diag` weight keys are present and nonzero — carry the corresponding
STANDARD closure weights (`logcamp`, `cphase`), which may be zero or differ
from the gating weight. -/
theorem c6_data_term_selection (c : DataTermCfg) (dt : List (String × ℚ))
    (k : String) (w : ℚ)
    (hok : buildDataTerm c = .ok dt) (hmem : (k, w) ∈ dt) :
    (k = "vis" ∨ k = "amp" ∨ k = "logcamp" ∨ k = "cphase" ∨
     k = "logcamp_diag" ∨ k = "cphase_diag") ∧
    (k = "vis" → c.vis = some w ∧ w ≠ 0) ∧
    (k = "amp" → c.amp = some w ∧ w ≠ 0) ∧
    (k = "logcamp" → ¬c.diag_closure = some true ∧ c.logcamp = some w ∧ w ≠ 0) ∧
    (k = "cphase" → ¬c.diag_closure = some true ∧ c.cphase = some w ∧ w ≠ 0) ∧
    (k = "logcamp_diag" → c.diag_closure = some true ∧
       (∃ wd, c.logcamp_diag = some wd ∧ wd ≠ 0) ∧ c.logcamp = some w) ∧
    (k = "cphase_diag" → c.diag_closure = some true ∧
       (∃ wd, c.cphase_diag = some wd ∧ wd ≠ 0) ∧ c.cphase = some w) := by
  by_cases hdc : c.diag_closure = some true
  · rw [buildDataTerm, if_pos hdc] at hok
    cases h1 : diagTerm c.logcamp_diag c.logcamp "logcamp_diag" with
    | error e =>
        rw [h1] at hok
        exact Except.noConfusion hok
    | ok l1 =>
        cases h2 : diagTerm c.cphase_diag c.cphase "cphase_diag" with
        | error e =>
            rw [h1, h2] at hok
            exact Except.noConfusion hok
        | ok l2 =>
            rw [h1, h2] at hok
            rw [← Except.ok.inj hok] at hmem
            rcases List.mem_append.mp hmem with hm | hm2
            · rcases List.mem_append.mp hm with hm | hm1
              · rcases List.mem_append.mp hm with hv | ha
                · obtain ⟨hk, hs, hnz⟩ := (mem_stdTerm _ _ _ _).mp hv
                  subst hk
                  simp [hs, hnz, hdc]
                · obtain ⟨hk, hs, hnz⟩ := (mem_stdTerm _ _ _ _).mp ha
                  subst hk
                  simp [hs, hnz, hdc]
              · obtain ⟨hk, hg, hv⟩ := (mem_diagTerm _ _ _ _ h1 _ _).mp hm1
                subst hk
                simp [hg, hv, hdc]
            · obtain ⟨hk, hg, hv⟩ := (mem_diagTerm _ _ _ _ h2 _ _).mp hm2
              subst hk
              simp [hg, hv, hdc]
  · rw [buildDataTerm, if_neg hdc] at hok
    rw [← Except.ok.inj hok] at hmem
    rcases List.mem_append.mp hmem with hm | hcp
    · rcases List.mem_append.mp hm with hm | hlc
      · rcases List.mem_append.mp hm with hv | ha
        · obtain ⟨hk, hs, hnz⟩ := (mem_stdTerm _ _ _ _).mp hv
          subst hk
          simp [hs, hnz, hdc]
        · obtain ⟨hk, hs, hnz⟩ := (mem_stdTerm _ _ _ _).mp ha
          subst hk
          simp [hs, hnz, hdc]
      · obtain ⟨hk, hs, hnz⟩ := (mem_stdTerm _ _ _ _).mp hlc
        subst hk
        simp [hs, hnz, hdc]
    · obtain ⟨hk, hs, hnz⟩ := (mem_stdTerm _ _ _ _).mp hcp
      subst hk
      simp [hs, hnz, hdc]

/-- The configured weight each data-term key would carry if every included
term carried its own weight, as the claim asserts. -/
def ownWeight (c : DataTermCfg) : String → Option ℚ
  | "vis" => c.vis
  | "amp" => c.amp
  | "logcamp" => c.logcamp
  | "cphase" => c.cphase
  | "logcamp_diag" => c.logcamp_diag
  | "cphase_diag" => c.cphase_diag
  | _ => none

/-- Projection of a built data-term mapping, empty on error. -/
def dtListOf (e : Except String (List (String × ℚ))) : List (String × ℚ) :=
  match e with
  | .ok l => l
  | .error _ => []

/-- Configuration for the C6 counterexample: diagnostic closure enabled, the
diagnostic log-closure-amplitude weight is 1 (present and nonzero) while the
standard `logcamp` weight is 0. -/
def exCfg6 : DataTermCfg :=
  { vis := none, amp := none, logcamp := some 0, cphase := none,
    logcamp_diag := some 1, cphase_diag := none, diag_closure := some true }

/-- Counterexample to claim C6 as stated: the built mapping contains the term
`("logcamp_diag", 0)` — a zero-weighted entry whose value is the standard
`logcamp` weight (0), not its own configured `logcamp_diag` weight (1). -/
theorem c6_counterexample :
    buildDataTerm exCfg6 = .ok [("logcamp_diag", 0)] ∧
    ¬(∀ k w, (k, w) ∈ dtListOf (buildDataTerm exCfg6) →
        w ≠ 0 ∧ ownWeight exCfg6 k = some w) := by
  refine ⟨rfl, fun hclaim => ?_⟩
  exact (hclaim "logcamp_diag" 0 (by decide)).1 rfl

/-- Configuration for the C6 witness: all six weights present and nonzero,
diagnostic closure enabled. -/
def exCfg6w : DataTermCfg :=
  { vis := some 2, amp := some 7, logcamp := some 3, cphase := some 4,
    logcamp_diag := some 5, cphase_diag := some 6, diag_closure := some true }

/-- The data-term mapping built from `exCfg6w`. -/
def exDt6w : List (String × ℚ) :=
  [("vis", 2), ("amp", 7), ("logcamp_diag", 3), ("cphase_diag", 4)]

theorem c6_data_term_selection_witness :
    buildDataTerm exCfg6w = .ok exDt6w ∧
    ("logcamp_diag", (3 : ℚ)) ∈ exDt6w ∧
    (exCfg6w.diag_closure = some true ∧
       (∃ wd, exCfg6w.logcamp_diag = some wd ∧ wd ≠ 0) ∧ exCfg6w.logcamp = some 3) :=
  ⟨rfl, by decide,
   (c6_data_term_selection exCfg6w exDt6w "logcamp_diag" 3 rfl
     (by decide)).2.2.2.2.2.1 rfl⟩

/-- Trace of `ParameterSet.make_img` (lines 156-278): the current `data_term`
weights, how many times the static imager (`imgr.make_image_I`), the
phase-only self-calibration (`eh.selfcal(..., method='phase')`) and the
amplitude+phase self-calibration (`eh.selfcal(..., method='both')`) were
invoked, at which loop iterations the two data-weight boosts fired, and
whether the local variable `caltab` was ever assigned. -/
structure ImgTrace where
  dataTerm : List (String × ℚ)
  staticCalls : ℕ
  phaseSelfcalCalls : ℕ
  apSelfcalCalls : ℕ
  phaseBoostIters : List ℕ
  apBoostIters : List ℕ
  caltabSet : Bool
deriving DecidableEq

/-- The boost `for key in dterms: data_term[key] *= x` (lines 232-233 and
259-260): `dterms` is `data_term.keys()` captured at line 224 and no key is
ever added, so the loop multiplies every stored weight by `x`. -/
def boostAll (x : ℚ) (dt : List (String × ℚ)) : List (String × ℚ) :=
  dt.map (fun kv => (kv.1, kv.2 * x))

/-- The phase-only self-calibration loop `while sc_p_idx < self.sc_phase`
(lines 225-247), with `n` the remaining iterations and `idx` the running
`sc_p_idx`: on the first iteration only (`sc_p_idx == 0`, line 231) the data
weights are multiplied by `xdw_phase`; each iteration runs the imager once
(line 242) and one phase-only self-calibration (line 245).  Returns the final
`sc_p_idx` and the trace. -/
def phaseLoop (xdw : ℚ) : ℕ → ℕ → ImgTrace → ℕ × ImgTrace
  | idx, 0, st => (idx, st)
  | idx, n + 1, st =>
      let st1 := if idx = 0 then
          { st with dataTerm := boostAll xdw st.dataTerm,
                    phaseBoostIters := st.phaseBoostIters ++ [idx] }
        else st
      let st2 := { st1 with staticCalls := st1.staticCalls + 1,
                            phaseSelfcalCalls := st1.phaseSelfcalCalls + 1 }
      phaseLoop xdw (idx + 1) n st2

/-- The amplitude+phase self-calibration loop `while sc_ap_idx < self.sc_ap`
(lines 252-275): the boost condition at line 258 reads `sc_p_idx` — the PHASE
loop's counter `pidx`, which never changes here — not the loop's own
`sc_ap_idx`; each iteration runs the imager once (line 269) and one
amplitude+phase self-calibration producing `caltab` (lines 271-272). -/
def apLoop (xdw : ℚ) (pidx : ℕ) : ℕ → ℕ → ImgTrace → ImgTrace
  | _, 0, st => st
  | apidx, n + 1, st =>
      let st1 := if pidx = 0 then
          { st with dataTerm := boostAll xdw st.dataTerm,
                    apBoostIters := st.apBoostIters ++ [apidx] }
        else st
      let st2 := { st1 with staticCalls := st1.staticCalls + 1,
                            apSelfcalCalls := st1.apSelfcalCalls + 1,
                            caltabSet := true }
      apLoop xdw pidx (apidx + 1) n st2

/-- Configuration attributes driving the `make_img` control flow. -/
structure ImgCfg where
  dcfg : DataTermCfg
  selfcal : Bool
  sc_phase : ℕ
  sc_ap : ℕ
  xdw_phase : ℚ
  xdw_ap : ℚ
deriving DecidableEq

/-- Outcome of `make_img`: an `AttributeError` while building the data terms,
a `NameError` at line 278 (`self.caltab = caltab` with the local `caltab`
never assigned because no amplitude+phase round ran — `self.im_out` was
already set at line 277), or normal completion.  The trace is carried by both
non-attribute outcomes. -/
inductive ImgOutcome where
  | attrError (msg : String)
  | nameError (st : ImgTrace)
  | done (st : ImgTrace)
deriving DecidableEq

/-- `ParameterSet.make_img` (lines 156-278): build the data terms, run the
static imager once (line 215), then — only if `selfcal` is set — one initial
phase-only self-calibration (line 220), the phase-only loop and the
amplitude+phase loop; finally line 278 reads the local `caltab`, which raises
`NameError` unless some amplitude+phase iteration assigned it. -/
def make_img (cfg : ImgCfg) : ImgOutcome :=
  match buildDataTerm cfg.dcfg with
  | .error e => .attrError e
  | .ok dt0 =>
      let st0 : ImgTrace :=
        { dataTerm := dt0, staticCalls := 1, phaseSelfcalCalls := 0,
          apSelfcalCalls := 0, phaseBoostIters := [], apBoostIters := [],
          caltabSet := false }
      let st :=
        if cfg.selfcal then
          let st1 := { st0 with phaseSelfcalCalls := st0.phaseSelfcalCalls + 1 }
          let r := phaseLoop cfg.xdw_phase 0 cfg.sc_phase st1
          apLoop cfg.xdw_ap r.1 0 cfg.sc_ap r.2
        else st0
      if st.caltabSet then .done st else .nameError st

/-- Number of phase-only self-calibration invocations recorded in an outcome. -/
def phaseCallsOf : ImgOutcome → ℕ
  | .attrError _ => 0
  | .nameError st => st.phaseSelfcalCalls
  | .done st => st.phaseSelfcalCalls

/-- Number of amplitude+phase self-calibration invocations recorded. -/
def apCallsOf : ImgOutcome → ℕ
  | .attrError _ => 0
  | .nameError st => st.apSelfcalCalls
  | .done st => st.apSelfcalCalls

/-- The amplitude+phase-loop iterations at which the `xdw_ap` boost fired. -/
def apBoostsOf : ImgOutcome → List ℕ
  | .attrError _ => []
  | .nameError st => st.apBoostIters
  | .done st => st.apBoostIters

/-- Claim C2 (code bug): with self-calibration disabled, `make_img` runs the
static imager exactly once, attempts no self-calibration of either kind, sets
the final image — and then raises `NameError` at `self.caltab = caltab`
(line 278) because the local `caltab` was never assigned, instead of
completing without error with the calibration table simply absent as the
claim states. -/
theorem c2_selfcal_disabled_nameerror (cfg : ImgCfg) (dt0 : List (String × ℚ))
    (hsc : cfg.selfcal = false) (hdt : buildDataTerm cfg.dcfg = .ok dt0) :
    make_img cfg = .nameError
      { dataTerm := dt0, staticCalls := 1, phaseSelfcalCalls := 0,
        apSelfcalCalls := 0, phaseBoostIters := [], apBoostIters := [],
        caltabSet := false } := by
  simp [make_img, hdt, hsc]

/-- Configuration with self-calibration disabled used as the concrete C2
failing input. -/
def exCfg2 : ImgCfg :=
  { dcfg := { vis := some 1, amp := none, logcamp := none, cphase := none,
              logcamp_diag := none, cphase_diag := none, diag_closure := none },
    selfcal := false, sc_phase := 2, sc_ap := 2, xdw_phase := 10, xdw_ap := 1 }

theorem c2_selfcal_disabled_nameerror_witness :
    exCfg2.selfcal = false ∧
    buildDataTerm exCfg2.dcfg = .ok [("vis", 1)] ∧
    make_img exCfg2 = .nameError
      { dataTerm := [("vis", 1)], staticCalls := 1, phaseSelfcalCalls := 0,
        apSelfcalCalls := 0, phaseBoostIters := [], apBoostIters := [],
        caltabSet := false } :=
  ⟨rfl, rfl, c2_selfcal_disabled_nameerror exCfg2 [("vis", 1)] rfl rfl⟩

/-- Configuration with `selfcal` on, `sc_phase = 2`, `sc_ap = 0` used as the
concrete C3 counterexample input. -/
def exCfg3 : ImgCfg :=
  { dcfg := { vis := some 1, amp := none, logcamp := none, cphase := none,
              logcamp_diag := none, cphase_diag := none, diag_closure := none },
    selfcal := true, sc_phase := 2, sc_ap := 0, xdw_phase := 10, xdw_ap := 1 }

/-- Counterexample to claim C3 as stated: with `sc_phase = 2` and `sc_ap = 0`
the imaging stage performs THREE phase-only self-calibration invocations (the
initial alignment call at line 220 plus one per loop iteration at line 245),
not two. -/
theorem c3_counterexample :
    exCfg3.selfcal = true ∧ exCfg3.sc_phase = 2 ∧ exCfg3.sc_ap = 0 ∧
    phaseCallsOf (make_img exCfg3) = 3 ∧ phaseCallsOf (make_img exCfg3) ≠ 2 := by
  decide

/-- Claim C3 (amended): with self-calibration enabled, `sc_phase = 2` and
`sc_ap = 0`, the imaging stage performs exactly three phase-only
self-calibration invocations (one initial alignment call plus one per loop
iteration) and zero amplitude+phase invocations, and multiplies the active
data-term weights by `xdw_phase` exactly once, on the first phase-only loop
iteration; the stage then ends in the unbound-`caltab` `NameError` since no
amplitude+phase round ran. -/
theorem c3_two_phase_rounds (cfg : ImgCfg) (dt0 : List (String × ℚ))
    (hsc : cfg.selfcal = true) (hp : cfg.sc_phase = 2) (ha : cfg.sc_ap = 0)
    (hdt : buildDataTerm cfg.dcfg = .ok dt0) :
    make_img cfg = .nameError
      { dataTerm := boostAll cfg.xdw_phase dt0, staticCalls := 3,
        phaseSelfcalCalls := 3, apSelfcalCalls := 0, phaseBoostIters := [0],
        apBoostIters := [], caltabSet := false } := by
  simp [make_img, hdt, hsc, hp, ha, phaseLoop, apLoop]

theorem c3_two_phase_rounds_witness :
    exCfg3.selfcal = true ∧ exCfg3.sc_phase = 2 ∧ exCfg3.sc_ap = 0 ∧
    buildDataTerm exCfg3.dcfg = .ok [("vis", 1)] ∧
    make_img exCfg3 = .nameError
      { dataTerm := boostAll exCfg3.xdw_phase [("vis", 1)], staticCalls := 3,
        phaseSelfcalCalls := 3, apSelfcalCalls := 0, phaseBoostIters := [0],
        apBoostIters := [], caltabSet := false } :=
  ⟨rfl, rfl, rfl, rfl, c3_two_phase_rounds exCfg3 [("vis", 1)] rfl rfl rfl rfl⟩

theorem phaseLoop_fst (x : ℚ) (idx n : ℕ) (st : ImgTrace) :
    (phaseLoop x idx n st).1 = idx + n := by
  induction n generalizing idx st with
  | zero => simp [phaseLoop]
  | succ n ih =>
      by_cases h : idx = 0 <;> simp [phaseLoop, h, ih] <;> omega

theorem phaseLoop_apBoostIters (x : ℚ) (idx n : ℕ) (st : ImgTrace) :
    (phaseLoop x idx n st).2.apBoostIters = st.apBoostIters := by
  induction n generalizing idx st with
  | zero => simp [phaseLoop]
  | succ n ih =>
      by_cases h : idx = 0 <;> simp [phaseLoop, h, ih]

theorem apLoop_apBoostIters (x : ℚ) (pidx apidx n : ℕ) (st : ImgTrace) :
    (apLoop x pidx apidx n st).apBoostIters =
      st.apBoostIters ++ (if pidx = 0 then List.range' apidx n else []) := by
  induction n generalizing apidx st with
  | zero => simp [apLoop]
  | succ n ih =>
      by_cases h : pidx = 0
      · subst h
        simp [apLoop, ih, List.range'_succ]
      · simp [apLoop, h, ih]

theorem apBoostsOf_ite (b : Bool) (st : ImgTrace) :
    apBoostsOf (if b = true then ImgOutcome.done st else ImgOutcome.nameError st) =
      st.apBoostIters := by
  cases b <;> simp [apBoostsOf]

/-- Configuration with `sc_phase = 0` and `sc_ap = 2` used as the concrete C4
counterexample input. -/
def exCfg4 : ImgCfg :=
  { dcfg := { vis := some 1, amp := none, logcamp := none, cphase := none,
              logcamp_diag := none, cphase_diag := none, diag_closure := none },
    selfcal := true, sc_phase := 0, sc_ap := 2, xdw_phase := 10, xdw_ap := 3 }

/-- Counterexample to claim C4 as stated: when the phase loop ran zero
iterations (`sc_phase = 0`), the `xdw_ap` boost fires on EVERY amplitude+phase
iteration (here iterations 0 and 1), not only on the first. -/
theorem c4_counterexample :
    exCfg4.selfcal = true ∧ exCfg4.sc_phase = 0 ∧ exCfg4.sc_ap = 2 ∧
    apBoostsOf (make_img exCfg4) = [0, 1] ∧ apBoostsOf (make_img exCfg4) ≠ [0] := by
  decide

/-- Claim C4 (amended): the `xdw_ap` boost is gated on the phase loop's
counter `sc_p_idx` rather than the amplitude loop's own counter, so it fires
only when the phase loop ran zero iterations (`sc_phase = 0`); but since that
counter never changes inside the amplitude+phase loop, in that case the boost
is applied on EVERY amplitude+phase iteration, not only the first. -/
theorem c4_ap_boost_gated_on_phase_counter (cfg : ImgCfg) (dt0 : List (String × ℚ))
    (hsc : cfg.selfcal = true) (hdt : buildDataTerm cfg.dcfg = .ok dt0) :
    apBoostsOf (make_img cfg) =
      (if cfg.sc_phase = 0 then List.range cfg.sc_ap else []) := by
  simp only [make_img, hdt, hsc, if_true]
  rw [apBoostsOf_ite, apLoop_apBoostIters, phaseLoop_apBoostIters, phaseLoop_fst]
  simp [List.range_eq_range']

theorem c4_ap_boost_gated_on_phase_counter_witness :
    exCfg4.selfcal = true ∧
    buildDataTerm exCfg4.dcfg = .ok [("vis", 1)] ∧
    apBoostsOf (make_img exCfg4) =
      (if exCfg4.sc_phase = 0 then List.range exCfg4.sc_ap else []) :=
  ⟨rfl, rfl, c4_ap_boost_gated_on_phase_counter exCfg4 [("vis", 1)] rfl rfl⟩

/-- The pipeline stages of `ParameterSet.run` (lines 426-465), in program
order. -/
inductive Stage where
  | load
  | preimcal
  | initImg
  | makeImg
  | outputResults
  | saveParams
  | saveStatistics
deriving DecidableEq

/-- The stage sequence of one fresh run (lines 444-465): the six core stages,
followed by the statistics stage only when `save_stats` is set.  Note that
`save_params` — which writes the `_params.csv` marker — precedes the
statistics stage. -/
def stageList (saveStats : Bool) : List Stage :=
  [.load, .preimcal, .initImg, .makeImg, .outputResults, .saveParams] ++
    (if saveStats then [.saveStatistics] else [])

/-- The six stages up to and including the marker write. -/
def coreStages : List Stage :=
  [.load, .preimcal, .initImg, .makeImg, .outputResults, .saveParams]

/-- Sequential execution with uncaught exceptions (spec 7: failures propagate
uncaught, aborting the run): stages run in order until the first failure;
`ok s = false` means stage `s` raises. -/
def execStages (ok : Stage → Bool) : List Stage → List Stage
  | [] => []
  | s :: rest => if ok s then s :: execStages ok rest else []

/-- Environment of one `run` call: whether the `_params.csv` marker already
exists (line 441), whether statistics are requested, and which external-stage
calls succeed. -/
structure RunConfig where
  markerExists : Bool
  saveStats : Bool
  stageOk : Stage → Bool

/-- Result of one `run` call: the stages that completed and whether the
marker file is present afterwards. -/
structure RunResult where
  completed : List Stage
  markerPresent : Bool
deriving DecidableEq

/-- `ParameterSet.run` (lines 426-465): if the marker file exists, skip every
stage unconditionally; otherwise execute the stages in order, the marker
becoming present exactly when `save_params` completes (it writes the
`_params.csv` file as its effect). -/
def runPipeline (cfg : RunConfig) : RunResult :=
  if cfg.markerExists then { completed := [], markerPresent := true }
  else
    let done := execStages cfg.stageOk (stageList cfg.saveStats)
    { completed := done, markerPresent := decide (Stage.saveParams ∈ done) }

/-- Run environment for the C1 counterexample: fresh run, statistics
requested, every stage succeeds except the statistics stage. -/
def exRunCfg1 : RunConfig :=
  { markerExists := false, saveStats := true,
    stageOk := fun s => match s with
      | .saveStatistics => false
      | _ => true }

/-- Counterexample to claim C1 as stated: with statistics requested and the
statistics stage failing, the run persists its marker even though not every
pipeline stage completed — so on the next invocation it is treated as done
and is NOT redone. -/
theorem c1_counterexample :
    exRunCfg1.saveStats = true ∧
    (runPipeline exRunCfg1).markerPresent = true ∧
    Stage.saveStatistics ∉ (runPipeline exRunCfg1).completed ∧
    (runPipeline exRunCfg1).completed ≠ stageList exRunCfg1.saveStats := by
  decide

/-- Claim C1 (amended): on a fresh run the marker is persisted exactly when
all six stages through `save_params` complete; the statistics stage, when
requested, runs only after the marker is persisted, so a run that fails in
the statistics stage still leaves its marker (and is skipped, not redone, on
the next invocation — a marker already present skips every stage). -/
theorem c1_marker_persisted_at_save_params (cfg : RunConfig) :
    (cfg.markerExists = true →
       runPipeline cfg = { completed := [], markerPresent := true }) ∧
    (cfg.markerExists = false →
       (((runPipeline cfg).markerPresent = true) ↔
          coreStages.all cfg.stageOk = true) ∧
       (Stage.saveStatistics ∈ (runPipeline cfg).completed →
          (runPipeline cfg).markerPresent = true)) := by
  obtain ⟨me, ss, ok⟩ := cfg
  cases me
  · cases h1 : ok .load <;> cases h2 : ok .preimcal <;> cases h3 : ok .initImg <;>
      cases h4 : ok .makeImg <;> cases h5 : ok .outputResults <;>
        cases h6 : ok .saveParams <;> cases h7 : ok .saveStatistics <;> cases ss <;>
          simp [runPipeline, execStages, stageList, coreStages, h1, h2, h3, h4, h5, h6, h7]
  · simp [runPipeline]

theorem c1_marker_persisted_at_save_params_witness :
    exRunCfg1.markerExists = false ∧
    ((((runPipeline exRunCfg1).markerPresent = true) ↔
        coreStages.all exRunCfg1.stageOk = true) ∧
     (Stage.saveStatistics ∈ (runPipeline exRunCfg1).completed →
        (runPipeline exRunCfg1).markerPresent = true)) :=
  ⟨rfl, (c1_marker_persisted_at_save_params exRunCfg1).2 rfl⟩

/-- Modelled from the spec: `paramsurvey.params.product` is an external
collaborator that builds "the cartesian product of all supplied
swept-parameter value lists, each combination becoming one row" (spec 3, 4.9,
6). -/
def cartProduct {α : Type} : List (List α) → List (List α)
  | [] => [[]]
  | vs :: rest => vs.flatMap (fun v => (cartProduct rest).map (fun combo => v :: combo))

theorem cartProduct_length {α : Type} (ls : List (List α)) :
    (cartProduct ls).length = (ls.map List.length).prod := by
  induction ls with
  | nil => simp [cartProduct]
  | cons vs rest ih =>
      simp [cartProduct, ih, Function.comp_def, List.length_map, List.map_const',
        List.sum_replicate, smul_eq_mul]

/-- The parameter table built by `create_survey_psets`: its rows and the `i`
index column. -/
structure SurveyPsets where
  rows : List (List Val)
  iCol : List ℕ
deriving DecidableEq

/-- `create_survey_psets` (lines 549-593): build the cartesian product of the
swept value lists and add the index column `psets['i'] =
np.array(range(len(psets)))` (line 592). -/
def create_survey_psets (valueLists : List (List Val)) : SurveyPsets :=
  let rows := cartProduct valueLists
  { rows := rows, iCol := List.range rows.length }

/-- Claim C9: for every combination of swept-parameter value lists, the
constructed table has a number of rows equal to the product of the
value-list lengths, and the index column consists of unique, contiguous
integers from 0 to N-1 in insertion order. -/
theorem c9_psets_rows_and_index (valueLists : List (List Val)) :
    (create_survey_psets valueLists).rows.length = (valueLists.map List.length).prod ∧
    (create_survey_psets valueLists).iCol =
      List.range (create_survey_psets valueLists).rows.length ∧
    (create_survey_psets valueLists).iCol.Nodup :=
  ⟨cartProduct_length valueLists, rfl, List.nodup_range _⟩

end EhtimSurvey
